import Mathlib

/-!
Verification of the bounded broken-link web crawler (src/index.js).

The development shallowly embeds the crawler's data model and control loop:

* pure functions of the source (link classification, link extraction,
  session-action selection, report counters, the final verdict) become Lean
  functions;
* the stateful crawl loop becomes explicit state passing over `CrawlState`
  with a fuel-indexed iteration function;
* the browser-automation collaborators (puppeteer page, Synthetics
  screenshot sink, report sink) are modelled as oracles: the outcome of each
  `page.goto`, the anchors present in each loaded DOM, and the
  success/failure of each close/launch/reset/screenshot/addLink call;
* a JS value that may be `null`/`undefined` becomes an `Option`; code that
  throws becomes `Except String`.
-/

namespace WebCrawler

/-! ## Configuration constants of src/index.js (lines 9-63) -/

/-- Source constant `URL_LIST` (src/index.js:9). -/
def URL_LIST : List String := ["https://www.mydomain.com/"]

/-- Source constant `MUST_INCLUDE_DOMAIN` (src/index.js:14). -/
def MUST_INCLUDE_DOMAIN : Bool := true

/-- Source constant `DOMAIN` (src/index.js:15). -/
def DOMAIN : String := "mydomain.com"

/-- Source constant `MAX_NUM_LINKS_TO_FOLLOW` (src/index.js:20). -/
def MAX_NUM_LINKS_TO_FOLLOW : Nat := 750

/-- Source constant `NUM_LINKS_TO_RELAUNCH_BROWSER` (src/index.js:26). -/
def NUM_LINKS_TO_RELAUNCH_BROWSER : Nat := 5

/-- Source constant `TIMEOUT` in milliseconds (src/index.js:31). -/
def TIMEOUT : Nat := 15000

/-- Source constant `NETWORK_WAIT_CONDITION` (src/index.js:36). -/
def NETWORK_WAIT_CONDITION : String := "domcontentloaded"

/-- Source constant `CAPTURE_SOURCE_PAGE_SCREENSHOT` (src/index.js:41). -/
def CAPTURE_SOURCE_PAGE_SCREENSHOT : Bool := false

/-- Source constant `CAPTURE_DESTINATION_PAGE_SCREENSHOT_ON_SUCCESS` (src/index.js:46). -/
def CAPTURE_DESTINATION_PAGE_SCREENSHOT_ON_SUCCESS : Bool := false

/-- Source constant `CAPTURE_DESTINATION_PAGE_SCREENSHOT_ON_FAILURE` (src/index.js:51). -/
def CAPTURE_DESTINATION_PAGE_SCREENSHOT_ON_FAILURE : Bool := false

/-! ## The options objects passed to page.goto (src/index.js:184 and 243-246)

A JS object literal is embedded as an association list from property names to
values, so that exactly the property keys the source creates are visible.
Note that both literals use the ES6 shorthand property `TIMEOUT`, which
creates a property named `TIMEOUT` (the name of the constant), not the
lower-case `timeout` option that puppeteer's `page.goto` reads. -/

/-- JS values appearing in the goto options objects. -/
inductive JsValue where
  | str (s : String)
  | num (n : Nat)
  | arr (elems : List JsValue)

/-- The options object of the per-link navigation
`page.goto(nav_url, { waitUntil: ['load', NETWORK_WAIT_CONDITION], TIMEOUT })`
(src/index.js:243-246). -/
def gotoOptions : List (String × JsValue) :=
  [("waitUntil", JsValue.arr [JsValue.str "load", JsValue.str NETWORK_WAIT_CONDITION]),
   ("TIMEOUT", JsValue.num TIMEOUT)]

/-- The options object of the blank-page reset
`page.goto('about:blank', { waitUntil: ['load', NETWORK_WAIT_CONDITION], TIMEOUT })`
(src/index.js:184). -/
def resetPageGotoOptions : List (String × JsValue) :=
  [("waitUntil", JsValue.arr [JsValue.str "load", JsValue.str NETWORK_WAIT_CONDITION]),
   ("TIMEOUT", JsValue.num TIMEOUT)]

/-! ## Request interception (src/index.js:234-241) -/

/-- Decision taken by the request-interception listener: `request.continue()`
or `request.abort()`. -/
inductive RequestDecision where
  | continued
  | aborted
  deriving DecidableEq, Repr

/-- JS `String.prototype.includes` on lists of characters: `sub` occurs as a
contiguous substring. -/
def listContainsSub (l sub : List Char) : Bool :=
  match l with
  | [] => sub.isEmpty
  | _ :: rest => sub.isPrefixOf l || listContainsSub rest sub

/-- JS `s.includes(sub)`. -/
def strIncludes (s sub : String) : Bool :=
  listContainsSub s.toList sub.toList

/-- The `page.on('request', ...)` listener (src/index.js:234-241): a request
of resource type `document` runs
`if (MUST_INCLUDE_DOMAIN && request.url().includes(DOMAIN)) request.continue(); else request.continue();`
and any other resource type is aborted. Both branches of the domain test
call `request.continue()`, exactly as in the source. -/
def onRequest (mustIncludeDomain : Bool) (domain : String)
    (resourceType requestUrl : String) : RequestDecision :=
  if resourceType = "document" then
    if mustIncludeDomain && strIncludes requestUrl domain then
      RequestDecision.continued
    else
      RequestDecision.continued
  else
    RequestDecision.aborted

/-! ## Links and navigation outcomes -/

/-- A `SyntheticsLink` (external collaborator class, used at
src/index.js:133 and 204): url plus the fields progressively set through
`withParentUrl`, `withText`, `withStatusCode`, `withStatusText`,
`withFailureReason`, `addScreenshotResult`. -/
structure SynLink where
  url : String
  parentUrl : Option String := none
  anchorText : Option String := none
  statusCode : Option Nat := none
  statusText : Option String := none
  failureReason : Option String := none
  screenshots : List String := []
  deriving DecidableEq, Repr

/-- The `SyntheticsLink.addScreenshotResult` collaborator call: appends a
screenshot artifact when one was produced; an `undefined` result (screenshot
disabled or failed) leaves the link unchanged. -/
def addScreenshotResult (link : SynLink) (result : Option String) : SynLink :=
  match result with
  | some s => { link with screenshots := link.screenshots ++ [s] }
  | none => link

/-- A puppeteer navigation response: `status()` (which JS may report as
`undefined` or `0`, both falsy — embedded as `Option Nat` with `some 0`
falsy) and `statusText()`. -/
structure NavResponse where
  status : Option Nat
  statusText : String
  deriving DecidableEq, Repr

/-- Outcome of the `try { ... await page.goto(nav_url, ...) }` block
(src/index.js:230-254): the block throws (transport error, timeout, or an
interception-setup failure), or resolves with `null`/a response object. -/
inductive NavOutcome where
  | throws (err : String)
  | resolves (response : Option NavResponse)
  deriving DecidableEq, Repr

/-- JS truthiness of `response.status()`: `undefined` and `0` are falsy. -/
def statusTruthy : Option Nat → Bool
  | none => false
  | some n => n != 0

/-- JS string coercion of `response.status()` as it appears inside
`'Status code: ' + response.status() + ...`: `undefined` prints as
`"undefined"`. -/
def statusToString : Option Nat → String
  | none => "undefined"
  | some n => toString n

/-- Classification of one dequeued link from its navigation outcome
(src/index.js:247-279), returning the enriched link and the updated
`brokenLinkError` detail string:

* the goto throws: `failureReason := error.toString()` and
  `brokenLinkError := 'Failed to load url: <url>. <error>'`;
* the goto resolves with no response: fixed `failureReason` and
  `brokenLinkError := 'Failed to receive network response for url: <url>'`;
* a response with truthy status `< 400`: status fields populated, no
  failure recorded;
* any other response (status `>= 400`, or a falsy status): status fields
  populated and `failureReason := 'Status code: <status> <text>'`, with the
  matching `brokenLinkError`.

Screenshot capture, which the source interleaves with these branches, is
performed on the classified link by the caller (`crawlStep`). -/
def classifyLink (link : SynLink) (nav : NavOutcome) (brokenLinkError : Option String) :
    SynLink × Option String :=
  match nav with
  | NavOutcome.throws err =>
    ({ link with failureReason := some err },
     some ("Failed to load url: " ++ link.url ++ ". " ++ err))
  | NavOutcome.resolves none =>
    ({ link with failureReason := some "Received null or undefined response" },
     some ("Failed to receive network response for url: " ++ link.url))
  | NavOutcome.resolves (some r) =>
    if statusTruthy r.status ∧ r.status.getD 0 < 400 then
      ({ link with statusCode := r.status, statusText := some r.statusText },
       brokenLinkError)
    else
      ({ link with statusCode := r.status, statusText := some r.statusText,
                   failureReason :=
                     some ("Status code: " ++ statusToString r.status ++ " " ++ r.statusText) },
       some ("Failed to load url: " ++ link.url ++ ". " ++
             ("Status code: " ++ statusToString r.status ++ " " ++ r.statusText)))

/-- The condition `response && response.status() && response.status() < 400`
(src/index.js:259 and 293-296), on the navigation outcome. -/
def navigationSucceeded : NavOutcome → Bool
  | NavOutcome.resolves (some r) => statusTruthy r.status && decide (r.status.getD 0 < 400)
  | _ => false

/-- The condition of the `else if (response)` branch (src/index.js:265). -/
def navHasResponse : NavOutcome → Bool
  | NavOutcome.resolves (some _) => true
  | _ => false

/-! ## Link extraction (grabLinks, src/index.js:73-141) -/

/-- One anchor element of a loaded DOM, as the in-page callback reads it:
`String(element.href).trim()` and the trimmed anchor text. The DOM oracle
supplies the already-coerced strings. -/
structure Anchor where
  href : String
  text : String
  deriving DecidableEq, Repr

/-- `grabLinks` (src/index.js:73-141): walk the page's anchors in order; an
anchor is accepted when its href is non-empty, not already in
`exploredUrls`, and starts with `http` (the source's
`url.startsWith('http') || url.startsWith('https')` collapses to the first
test). Each accepted href is pushed onto `exploredUrls` at the moment of
acceptance and yields a `SyntheticsLink` with parent url and anchor text;
the walk breaks as soon as `exploredUrls.length >= MAX_NUM_LINKS_TO_FOLLOW`
after a push. Source-page screenshot annotation is disabled
(`CAPTURE_SOURCE_PAGE_SCREENSHOT = false`), so `addScreenshotResult`
receives an undefined result. Returns the grabbed links and the updated
`exploredUrls`. -/
def grabLinks (anchors : List Anchor) (sourceUrl : String) (exploredUrls : List String)
    (maxNumLinksToFollow : Nat) : List SynLink × List String :=
  match anchors with
  | [] => ([], exploredUrls)
  | a :: rest =>
    if 0 < a.href.length ∧ a.href ∉ exploredUrls ∧ a.href.startsWith "http" then
      let exploredUrls' := exploredUrls ++ [a.href]
      let sourcePageScreenshotResult : Option String := none
      let link := addScreenshotResult
        { url := a.href, parentUrl := some sourceUrl, anchorText := some a.text }
        sourcePageScreenshotResult
      if maxNumLinksToFollow ≤ exploredUrls'.length then
        ([link], exploredUrls')
      else
        let r := grabLinks rest sourceUrl exploredUrls' maxNumLinksToFollow
        (link :: r.1, r.2)
    else
      grabLinks rest sourceUrl exploredUrls maxNumLinksToFollow

/-- Uncapped variant of `grabLinks`, following the specification's reading
of extraction without the discovery cap. It is used only to state the
mid-batch stopping property: the capped extraction admits exactly the first
`M - |exploredUrls|` admissions of the uncapped one. -/
def grabLinksNoCap (anchors : List Anchor) (sourceUrl : String)
    (exploredUrls : List String) : List SynLink × List String :=
  match anchors with
  | [] => ([], exploredUrls)
  | a :: rest =>
    if 0 < a.href.length ∧ a.href ∉ exploredUrls ∧ a.href.startsWith "http" then
      let link := addScreenshotResult
        { url := a.href, parentUrl := some sourceUrl, anchorText := some a.text }
        (none : Option String)
      let r := grabLinksNoCap rest sourceUrl (exploredUrls ++ [a.href])
      (link :: r.1, r.2)
    else
      grabLinksNoCap rest sourceUrl exploredUrls

/-! ## Browser session management (src/index.js:176-188 and 215-224) -/

/-- The three session-preparation actions of the crawl loop
(src/index.js:218-224). -/
inductive SessionAction where
  | relaunch
  | reset
  | usePage
  deriving DecidableEq, Repr

/-- The session decision taken before navigating the link with processed-link
counter `count` (src/index.js:218-224):
`if (count % NUM_LINKS_TO_RELAUNCH_BROWSER == 0 && count != MAX_NUM_LINKS_TO_FOLLOW)`
close and relaunch the browser; `else if (count != 1)` reset the page to
`about:blank`; else use the page as obtained. -/
def decideSessionAction (count numLinksToRelaunchBrowser maxNumLinksToFollow : Nat) :
    SessionAction :=
  if count % numLinksToRelaunchBrowser = 0 ∧ count ≠ maxNumLinksToFollow then
    SessionAction.relaunch
  else if count ≠ 1 then
    SessionAction.reset
  else
    SessionAction.usePage

/-- `resetPage` (src/index.js:182-188): `page.goto('about:blank', ...)` inside
`try { ... } catch { }` — a failing reset is swallowed, so the function
always returns normally. The argument is the outcome of the underlying goto
call. -/
def resetPage (gotoResult : Except String Unit) : Except String Unit :=
  match gotoResult with
  | Except.ok _ => Except.ok ()
  | Except.error _ => Except.ok ()

/-- The session-preparation phase of one loop iteration (src/index.js:218-224),
given the outcomes of the collaborator calls it may issue. On a relaunch,
`synthetics.close()` and `synthetics.launch()` are awaited outside any try
block, so a failure of either propagates; on a reset, `resetPage` swallows
its failure. -/
def prepareSession (count numLinksToRelaunchBrowser maxNumLinksToFollow : Nat)
    (closeResult launchResult resetResult : Except String Unit) : Except String Unit :=
  match decideSessionAction count numLinksToRelaunchBrowser maxNumLinksToFollow with
  | SessionAction.relaunch =>
    match closeResult with
    | Except.error e => Except.error e
    | Except.ok _ => launchResult
  | SessionAction.reset => resetPage resetResult
  | SessionAction.usePage => Except.ok ()

/-- `takeScreenshot` (src/index.js:150-156): `synthetics.takeScreenshot`
inside `try { ... } catch { }` — a failing capture is swallowed and yields
an undefined result. -/
def takeScreenshot (captureResult : Except String String) : Option String :=
  match captureResult with
  | Except.ok r => some r
  | Except.error _ => none

/-- `brokenLinkCheckerReport.addLink(link)` inside `try { ... } catch { }`
(src/index.js:284-288): on success the link is appended to the report's
entries; a failure is swallowed, leaving the entries unchanged. -/
def addLinkToReport (entries : List SynLink) (link : SynLink) (succeeds : Bool) :
    List SynLink :=
  if succeeds then entries ++ [link] else entries

/-! ## The crawl loop (webCrawlerController, src/index.js:193-333) -/

/-- Crawl configuration: the source constants of src/index.js:9-26,
abstracted as the configuration surface so that the loop theorems quantify
over them. -/
structure CrawlConfig where
  urlList : List String
  mustIncludeDomain : Bool := MUST_INCLUDE_DOMAIN
  domain : String := DOMAIN
  maxNumLinksToFollow : Nat
  numLinksToRelaunchBrowser : Nat

/-- The source configuration of src/index.js. -/
def sourceConfig : CrawlConfig :=
  { urlList := URL_LIST,
    maxNumLinksToFollow := MAX_NUM_LINKS_TO_FOLLOW,
    numLinksToRelaunchBrowser := NUM_LINKS_TO_RELAUNCH_BROWSER }

/-- Oracles for the external collaborators, indexed by the processed-link
counter of the iteration issuing the call: the outcome of each `page.goto`,
the anchors of each successfully loaded page, and the outcomes of the
`synthetics.close`/`synthetics.launch`/blank-page-goto/screenshot/addLink
calls. -/
structure Collaborators where
  gotoOutcome : Nat → String → NavOutcome
  pageAnchors : Nat → String → List Anchor
  closeResult : Nat → Except String Unit
  launchResult : Nat → Except String Unit
  resetResult : Nat → Except String Unit
  screenshotResult : Nat → Except String String
  addLinkSucceeds : Nat → Bool

/-- The mutable state of `webCrawlerController` (src/index.js:195-200):
`exploredUrls`, the pending queue `synLinks`, the processed-link counter
`count`, the latest `brokenLinkError` detail, and the report's entries. -/
structure CrawlState where
  exploredUrls : List String
  synLinks : List SynLink
  count : Nat
  brokenLinkError : Option String
  entries : List SynLink
  deriving DecidableEq, Repr

/-- The setup phase (src/index.js:195-205): `exploredUrls` is a copy of the
url list, and one `SyntheticsLink` per url — duplicates included — is pushed
onto the pending queue in order. -/
def initState (cfg : CrawlConfig) : CrawlState :=
  { exploredUrls := cfg.urlList,
    synLinks := cfg.urlList.map (fun url => { url := url }),
    count := 0,
    brokenLinkError := none,
    entries := [] }

/-- The destination-screenshot phase of an iteration (src/index.js:261-264
and 275-278): on a successful (status `< 400`) navigation, or on a failing
response, capture a screenshot when the corresponding toggle is on. Both
toggles are `false` in the source configuration. -/
def attachDestinationScreenshot (link : SynLink) (nav : NavOutcome)
    (screenshotResult : Except String String) : SynLink :=
  if navigationSucceeded nav then
    if CAPTURE_DESTINATION_PAGE_SCREENSHOT_ON_SUCCESS then
      addScreenshotResult link (takeScreenshot screenshotResult)
    else link
  else if navHasResponse nav then
    if CAPTURE_DESTINATION_PAGE_SCREENSHOT_ON_FAILURE then
      addScreenshotResult link (takeScreenshot screenshotResult)
    else link
  else link

/-- One iteration of the `while (synLinks.length > 0)` loop
(src/index.js:207-308): dequeue the head link, bump `count`, prepare the
session (a relaunch failure propagates as an error), classify the link from
its navigation outcome, capture the destination screenshot when the
corresponding toggle is on, append the link to the report (a failure is
swallowed), and — when navigation succeeded and the cap is not reached —
merge the links grabbed from the loaded page into the queue. -/
def crawlStep (cfg : CrawlConfig) (col : Collaborators) (s : CrawlState) :
    Except String CrawlState :=
  match s.synLinks with
  | [] => Except.ok s
  | link :: rest =>
    let count := s.count + 1
    match prepareSession count cfg.numLinksToRelaunchBrowser cfg.maxNumLinksToFollow
        (col.closeResult count) (col.launchResult count) (col.resetResult count) with
    | Except.error e => Except.error e
    | Except.ok _ =>
      let nav := col.gotoOutcome count link.url
      let classified := classifyLink link nav s.brokenLinkError
      let link2 := attachDestinationScreenshot classified.1 nav (col.screenshotResult count)
      let entries1 := addLinkToReport s.entries link2 (col.addLinkSucceeds count)
      if navigationSucceeded nav ∧ s.exploredUrls.length < cfg.maxNumLinksToFollow then
        let grabbed := grabLinks (col.pageAnchors count link.url) link.url
          s.exploredUrls cfg.maxNumLinksToFollow
        Except.ok { exploredUrls := grabbed.2, synLinks := rest ++ grabbed.1,
                    count := count, brokenLinkError := classified.2, entries := entries1 }
      else
        Except.ok { exploredUrls := s.exploredUrls, synLinks := rest,
                    count := count, brokenLinkError := classified.2, entries := entries1 }

/-- Fuel-indexed iteration of the crawl loop: runs `crawlStep` until the
queue is empty, an error propagates, or the fuel runs out. With fuel at
least `crawlFuel cfg` the fuel never runs out (see the termination
theorem). -/
def crawlLoop (cfg : CrawlConfig) (col : Collaborators) :
    Nat → CrawlState → Except String CrawlState
  | 0, s => Except.ok s
  | fuel + 1, s =>
    match s.synLinks with
    | [] => Except.ok s
    | _ :: _ =>
      match crawlStep cfg col s with
      | Except.error e => Except.error e
      | Except.ok s' => crawlLoop cfg col fuel s'

/-- Termination measure of the loop: pending links plus remaining discovery
budget. -/
def crawlMeasure (maxNumLinksToFollow : Nat) (s : CrawlState) : Nat :=
  s.synLinks.length + (maxNumLinksToFollow - s.exploredUrls.length)

/-- Fuel sufficient to drain the queue from the initial state. -/
def crawlFuel (cfg : CrawlConfig) : Nat :=
  cfg.urlList.length + cfg.maxNumLinksToFollow

/-- The report counter `getTotalLinksChecked()` of the
`BrokenLinkCheckerReport` collaborator, modelled from the specification's
interface of the Report Aggregator: the number of recorded entries. -/
def totalLinksChecked (entries : List SynLink) : Nat :=
  entries.length

/-- The report counter `getTotalBrokenLinks()` of the
`BrokenLinkCheckerReport` collaborator, modelled from the specification's
interface of the Report Aggregator: the number of recorded entries with a
non-empty `failureReason`. -/
def totalBrokenLinks (entries : List SynLink) : Nat :=
  (entries.filter (fun l => l.failureReason.getD "" ≠ "")).length

/-- JS string coercion of a nullable string, as in
`... + ' broken link(s) detected. ' + brokenLinkError` where
`brokenLinkError` may still be `null`. -/
def jsStringOfNullable : Option String → String
  | none => "null"
  | some s => s

/-- The verdict phase after the loop (src/index.js:324-332): when the report
holds at least one broken link, `brokenLinkError` becomes
`'<n> broken link(s) detected. ' + brokenLinkError` and is assigned to
`canaryError` (which is still `null` here: its only other assignment, in the
grab-links catch, is commented out in the source); `throw canaryError` then
fails the canary. With zero broken links `canaryError` stays `null` and the
controller returns normally. -/
def crawlVerdict (s : CrawlState) : Option String :=
  if totalBrokenLinks s.entries ≠ 0 then
    some (toString (totalBrokenLinks s.entries) ++ " broken link(s) detected. " ++
          jsStringOfNullable s.brokenLinkError)
  else
    none

/-- `webCrawlerController` (src/index.js:193-333): run the loop from the
seeded state; a propagated loop error (relaunch failure) aborts the crawl;
otherwise the verdict decides between a thrown failure string and normal
completion. -/
def webCrawlerController (cfg : CrawlConfig) (col : Collaborators) :
    Except String Unit :=
  match crawlLoop cfg col (crawlFuel cfg) (initState cfg) with
  | Except.error e => Except.error e
  | Except.ok s =>
    match crawlVerdict s with
    | some msg => Except.error msg
    | none => Except.ok ()

/-- Url projection of a list of links. -/
def urlsOf (links : List SynLink) : List String := links.map SynLink.url

/-- The dedup invariant of the crawl (specification §8): no url appears twice
across the report entries and the pending queue combined, every such url has
been recorded in `exploredUrls`, and the distinct `exploredUrls` never
exceed the discovery cap. -/
def NoDupUrls (maxNumLinksToFollow : Nat) (s : CrawlState) : Prop :=
  (urlsOf s.entries ++ urlsOf s.synLinks).Nodup ∧
  (∀ u ∈ urlsOf s.entries ++ urlsOf s.synLinks, u ∈ s.exploredUrls) ∧
  s.exploredUrls.Nodup ∧
  s.exploredUrls.length ≤ maxNumLinksToFollow

/-! ## Concrete fixtures used to exercise the theorems on closed inputs -/

/-- A one-seed configuration with discovery cap 1. -/
def cfgW1 : CrawlConfig :=
  { urlList := ["https://s/"], maxNumLinksToFollow := 1, numLinksToRelaunchBrowser := 5 }

/-- Collaborators whose navigations resolve without a response, whose pages
expose no anchors, and whose session/report calls all succeed. -/
def colW1 : Collaborators :=
  { gotoOutcome := fun _ _ => NavOutcome.resolves none,
    pageAnchors := fun _ _ => [],
    closeResult := fun _ => Except.ok (),
    launchResult := fun _ => Except.ok (),
    resetResult := fun _ => Except.ok (),
    screenshotResult := fun _ => Except.ok "shot",
    addLinkSucceeds := fun _ => true }

/-- The state `crawlLoop cfgW1 colW1 (crawlFuel cfgW1) (initState cfgW1)`
computes to. -/
def stateW1 : CrawlState :=
  { exploredUrls := ["https://s/"],
    synLinks := [],
    count := 1,
    brokenLinkError := some "Failed to receive network response for url: https://s/",
    entries := [{ url := "https://s/",
                  failureReason := some "Received null or undefined response" }] }

/-- A configuration whose seed list holds the same url twice. -/
def cfgW9 : CrawlConfig :=
  { urlList := ["https://dup/", "https://dup/"], maxNumLinksToFollow := 5,
    numLinksToRelaunchBrowser := 5 }

/-- The state `crawlLoop cfgW9 colW1 (crawlFuel cfgW9) (initState cfgW9)`
computes to: both seed occurrences dequeued, navigated and recorded. -/
def stateW9 : CrawlState :=
  { exploredUrls := ["https://dup/", "https://dup/"],
    synLinks := [],
    count := 2,
    brokenLinkError := some "Failed to receive network response for url: https://dup/",
    entries := [{ url := "https://dup/",
                  failureReason := some "Received null or undefined response" },
                { url := "https://dup/",
                  failureReason := some "Received null or undefined response" }] }

/-! ## Lemmas about link extraction -/

/-- Extraction extends `exploredUrls` by exactly the urls of the grabbed
links, in order: each acceptance pushes its url at the moment of
acceptance. -/
theorem grabLinks_explored_eq (sourceUrl : String) (maxN : Nat) :
    ∀ (anchors : List Anchor) (explored : List String),
      (grabLinks anchors sourceUrl explored maxN).2 =
        explored ++ ((grabLinks anchors sourceUrl explored maxN).1).map SynLink.url := by
  intro anchors
  induction anchors with
  | nil => intro e; simp [grabLinks]
  | cons a rest ih =>
    intro e
    by_cases hc : 0 < a.href.length ∧ a.href ∉ e ∧ a.href.startsWith "http"
    · by_cases hm : maxN ≤ e.length + 1
      · simp [grabLinks, hc, hm, addScreenshotResult]
      · simp [grabLinks, hc, hm, addScreenshotResult, ih (e ++ [a.href])]
    · simp only [grabLinks, if_neg hc]
      exact ih e

/-- Extraction preserves distinctness of `exploredUrls`: each accepted url
was checked against the set as it stood. -/
theorem grabLinks_explored_nodup (sourceUrl : String) (maxN : Nat) :
    ∀ (anchors : List Anchor) (explored : List String), explored.Nodup →
      ((grabLinks anchors sourceUrl explored maxN).2).Nodup := by
  intro anchors
  induction anchors with
  | nil => intro e he; simpa [grabLinks] using he
  | cons a rest ih =>
    intro e he
    by_cases hc : 0 < a.href.length ∧ a.href ∉ e ∧ a.href.startsWith "http"
    · have he' : (e ++ [a.href]).Nodup := by
        rw [List.nodup_append]
        refine ⟨he, List.nodup_singleton _, ?_⟩
        intro x hx hx'
        simp only [List.mem_singleton] at hx'
        subst hx'
        exact hc.2.1 hx
      by_cases hm : maxN ≤ e.length + 1
      · simpa [grabLinks, hc, hm, addScreenshotResult] using he'
      · simpa [grabLinks, hc, hm, addScreenshotResult] using ih (e ++ [a.href]) he'
    · simp only [grabLinks, if_neg hc]
      exact ih e he

/-- Extraction respects the discovery cap: started strictly below the cap,
`exploredUrls` never exceeds it — the walk breaks the instant the cap is
reached. -/
theorem grabLinks_explored_length_le (sourceUrl : String) (maxN : Nat) :
    ∀ (anchors : List Anchor) (explored : List String), explored.length < maxN →
      ((grabLinks anchors sourceUrl explored maxN).2).length ≤ maxN := by
  intro anchors
  induction anchors with
  | nil => intro e he; simpa [grabLinks] using Nat.le_of_lt he
  | cons a rest ih =>
    intro e he
    by_cases hc : 0 < a.href.length ∧ a.href ∉ e ∧ a.href.startsWith "http"
    · by_cases hm : maxN ≤ e.length + 1
      · have : (grabLinks (a :: rest) sourceUrl e maxN).2 = e ++ [a.href] := by
          simp [grabLinks, hc, hm, addScreenshotResult]
        rw [this]
        simp only [List.length_append, List.length_singleton]
        omega
      · have : (grabLinks (a :: rest) sourceUrl e maxN).2 =
            (grabLinks rest sourceUrl (e ++ [a.href]) maxN).2 := by
          simp [grabLinks, hc, hm, addScreenshotResult]
        rw [this]
        refine ih (e ++ [a.href]) ?_
        simp only [List.length_append, List.length_singleton]
        omega
    · simp only [grabLinks, if_neg hc]
      exact ih e he

/-- The capped extraction admits a prefix of what the uncapped extraction
would admit: the cap cuts the batch, it never reorders or skips. -/
theorem grabLinks_prefix_noCap (sourceUrl : String) (maxN : Nat) :
    ∀ (anchors : List Anchor) (explored : List String),
      (grabLinks anchors sourceUrl explored maxN).1 <+:
        (grabLinksNoCap anchors sourceUrl explored).1 := by
  intro anchors
  induction anchors with
  | nil => intro e; simp [grabLinks, grabLinksNoCap]
  | cons a rest ih =>
    intro e
    by_cases hc : 0 < a.href.length ∧ a.href ∉ e ∧ a.href.startsWith "http"
    · by_cases hm : maxN ≤ e.length + 1
      · simp only [grabLinks, grabLinksNoCap, if_pos hc]
        simp only [List.length_append, List.length_singleton, if_pos hm]
        exact List.cons_prefix_cons.mpr ⟨rfl, List.nil_prefix⟩
      · simp only [grabLinks, grabLinksNoCap, if_pos hc]
        simp only [List.length_append, List.length_singleton, if_neg hm]
        exact List.cons_prefix_cons.mpr ⟨rfl, ih (e ++ [a.href])⟩
    · simp only [grabLinks, grabLinksNoCap, if_neg hc]
      exact ih e

/-- Mid-batch stop: below the cap, the capped extraction admits exactly
`min` of the number of links the uncapped extraction would admit and the
remaining discovery budget `maxN - |exploredUrls|` — acceptance stops the
instant the cap is reached, not before and not after. -/
theorem grabLinks_length_eq_min (sourceUrl : String) (maxN : Nat) :
    ∀ (anchors : List Anchor) (explored : List String), explored.length < maxN →
      ((grabLinks anchors sourceUrl explored maxN).1).length =
        min (((grabLinksNoCap anchors sourceUrl explored).1).length)
          (maxN - explored.length) := by
  intro anchors
  induction anchors with
  | nil => intro e he; simp [grabLinks, grabLinksNoCap]
  | cons a rest ih =>
    intro e he
    by_cases hc : 0 < a.href.length ∧ a.href ∉ e ∧ a.href.startsWith "http"
    · by_cases hm : maxN ≤ e.length + 1
      · simp only [grabLinks, grabLinksNoCap, if_pos hc]
        simp only [List.length_append, List.length_singleton, if_pos hm]
        simp only [List.length_cons, List.length_singleton]
        omega
      · simp only [grabLinks, grabLinksNoCap, if_pos hc]
        simp only [List.length_append, List.length_singleton, if_neg hm]
        simp only [List.length_cons]
        have := ih (e ++ [a.href]) (by simp; omega)
        simp only [List.length_append, List.length_singleton] at this
        omega
    · simp only [grabLinks, grabLinksNoCap, if_neg hc]
      exact ih e he

/-! ## Lemmas about classification and the loop -/

/-- With both destination-screenshot toggles off (the source configuration),
the screenshot phase leaves the classified link unchanged. -/
theorem attachDestinationScreenshot_eq (link : SynLink) (nav : NavOutcome)
    (r : Except String String) : attachDestinationScreenshot link nav r = link := by
  simp [attachDestinationScreenshot, CAPTURE_DESTINATION_PAGE_SCREENSHOT_ON_SUCCESS,
    CAPTURE_DESTINATION_PAGE_SCREENSHOT_ON_FAILURE]

/-- Classification never changes a link's identity (its url). -/
theorem classifyLink_url (link : SynLink) (nav : NavOutcome) (b : Option String) :
    (classifyLink link nav b).1.url = link.url := by
  cases nav with
  | throws err => simp [classifyLink]
  | resolves resp =>
    cases resp with
    | none => simp [classifyLink]
    | some r =>
      by_cases h : statusTruthy r.status ∧ r.status.getD 0 < 400
      · simp [classifyLink, h]
      · simp [classifyLink, h]

@[simp]
theorem urlsOf_nil : urlsOf [] = [] := rfl

@[simp]
theorem urlsOf_cons (l : SynLink) (ls : List SynLink) :
    urlsOf (l :: ls) = l.url :: urlsOf ls := rfl

@[simp]
theorem urlsOf_append (l1 l2 : List SynLink) :
    urlsOf (l1 ++ l2) = urlsOf l1 ++ urlsOf l2 := by
  simp [urlsOf]

/-- A successful report append contributes exactly the link's url. -/
theorem urlsOf_addLink_true (entries : List SynLink) (link : SynLink) :
    urlsOf (addLinkToReport entries link true) = urlsOf entries ++ [link.url] := by
  simp [addLinkToReport, urlsOf]

/-- A swallowed report-append failure contributes nothing. -/
theorem urlsOf_addLink_false (entries : List SynLink) (link : SynLink) :
    urlsOf (addLinkToReport entries link false) = urlsOf entries := by
  simp [addLinkToReport]

/-- Characterization of one successful `crawlStep` on a nonempty queue: the
counter is bumped; the failure detail and the appended report entry come
from classifying the dequeued head; and either links were grabbed (the
navigation succeeded below the cap) or the state's frontier is simply the
tail of the queue. -/
theorem crawlStep_ok_inversion (cfg : CrawlConfig) (col : Collaborators)
    (s : CrawlState) (link : SynLink) (rest : List SynLink)
    (hq : s.synLinks = link :: rest) (s' : CrawlState)
    (h : crawlStep cfg col s = Except.ok s') :
    s'.count = s.count + 1 ∧
    s'.brokenLinkError =
      (classifyLink link (col.gotoOutcome (s.count + 1) link.url) s.brokenLinkError).2 ∧
    s'.entries = addLinkToReport s.entries
      (classifyLink link (col.gotoOutcome (s.count + 1) link.url) s.brokenLinkError).1
      (col.addLinkSucceeds (s.count + 1)) ∧
    ((navigationSucceeded (col.gotoOutcome (s.count + 1) link.url) = true ∧
        s.exploredUrls.length < cfg.maxNumLinksToFollow ∧
        s'.exploredUrls = (grabLinks (col.pageAnchors (s.count + 1) link.url) link.url
          s.exploredUrls cfg.maxNumLinksToFollow).2 ∧
        s'.synLinks = rest ++ (grabLinks (col.pageAnchors (s.count + 1) link.url) link.url
          s.exploredUrls cfg.maxNumLinksToFollow).1) ∨
      (s'.exploredUrls = s.exploredUrls ∧ s'.synLinks = rest)) := by
  simp only [crawlStep, hq] at h
  cases hprep : prepareSession (s.count + 1) cfg.numLinksToRelaunchBrowser
      cfg.maxNumLinksToFollow (col.closeResult (s.count + 1)) (col.launchResult (s.count + 1))
      (col.resetResult (s.count + 1)) with
  | error e => rw [hprep] at h; cases h
  | ok u =>
    rw [hprep] at h
    simp only [attachDestinationScreenshot_eq] at h
    by_cases hgrab : navigationSucceeded (col.gotoOutcome (s.count + 1) link.url) = true ∧
        s.exploredUrls.length < cfg.maxNumLinksToFollow
    · rw [if_pos hgrab] at h
      simp only [Except.ok.injEq] at h
      subst h
      exact ⟨rfl, rfl, rfl, Or.inl ⟨hgrab.1, hgrab.2, rfl, rfl⟩⟩
    · rw [if_neg hgrab] at h
      simp only [Except.ok.injEq] at h
      subst h
      exact ⟨rfl, rfl, rfl, Or.inr ⟨rfl, rfl⟩⟩

/-- Every iteration on a nonempty queue strictly decreases the termination
measure: one link leaves the queue, and each link entering it strictly grows
`exploredUrls` within its cap. -/
theorem crawlStep_measure_lt (cfg : CrawlConfig) (col : Collaborators)
    (s : CrawlState) (link : SynLink) (rest : List SynLink)
    (hq : s.synLinks = link :: rest) (s' : CrawlState)
    (h : crawlStep cfg col s = Except.ok s') :
    crawlMeasure cfg.maxNumLinksToFollow s' < crawlMeasure cfg.maxNumLinksToFollow s := by
  obtain ⟨-, -, -, hgrab | hng⟩ := crawlStep_ok_inversion cfg col s link rest hq s' h
  · obtain ⟨-, hlt, hexp, hsyn⟩ := hgrab
    have hexpeq := grabLinks_explored_eq link.url cfg.maxNumLinksToFollow
      (col.pageAnchors (s.count + 1) link.url) s.exploredUrls
    have hleG := grabLinks_explored_length_le link.url cfg.maxNumLinksToFollow
      (col.pageAnchors (s.count + 1) link.url) s.exploredUrls hlt
    rw [hexpeq] at hleG
    simp only [List.length_append, List.length_map] at hleG
    unfold crawlMeasure
    rw [hq, hsyn, hexp, hexpeq]
    simp only [List.length_append, List.length_cons, List.length_map]
    omega
  · unfold crawlMeasure
    rw [hng.1, hng.2, hq]
    simp only [List.length_cons]
    omega

/-- Running the loop with fuel at least the measure drains the queue: any
normally-completed run has an empty frontier. -/
theorem crawlLoop_drains (cfg : CrawlConfig) (col : Collaborators) :
    ∀ (fuel : Nat) (s : CrawlState), crawlMeasure cfg.maxNumLinksToFollow s ≤ fuel →
      ∀ s', crawlLoop cfg col fuel s = Except.ok s' → s'.synLinks = [] := by
  intro fuel
  induction fuel with
  | zero =>
    intro s hm s' h
    simp only [crawlLoop, Except.ok.injEq] at h
    unfold crawlMeasure at hm
    have hlen : s.synLinks.length = 0 := by omega
    rw [← h]
    exact List.length_eq_zero.mp hlen
  | succ n ih =>
    intro s hm s' h
    cases hq : s.synLinks with
    | nil =>
      simp only [crawlLoop, hq, Except.ok.injEq] at h
      subst h
      exact hq
    | cons link rest =>
      simp only [crawlLoop, hq] at h
      cases hstep : crawlStep cfg col s with
      | error e => rw [hstep] at h; cases h
      | ok s2 =>
        rw [hstep] at h
        have hlt := crawlStep_measure_lt cfg col s link rest hq s2 hstep
        exact ih s2 (by omega) s' h

/-- Nodup is preserved when a list known to sit inside `E` is prepended to
`W`, provided `E ++ W` is Nodup. -/
theorem nodup_append_of_subset {A E W : List String} (hA : A.Nodup)
    (hsub : ∀ u ∈ A, u ∈ E) (hEW : (E ++ W).Nodup) : (A ++ W).Nodup := by
  rw [List.nodup_append] at hEW ⊢
  exact ⟨hA, hEW.2.1, fun a ha haW => hEW.2.2 (hsub a ha) haW⟩

/-- One successful `crawlStep` preserves the dedup invariant. -/
theorem crawlStep_preserves_noDupUrls (cfg : CrawlConfig) (col : Collaborators)
    (s : CrawlState) (link : SynLink) (rest : List SynLink)
    (hq : s.synLinks = link :: rest) (s' : CrawlState)
    (h : crawlStep cfg col s = Except.ok s')
    (hinv : NoDupUrls cfg.maxNumLinksToFollow s) :
    NoDupUrls cfg.maxNumLinksToFollow s' := by
  obtain ⟨hnd, hmem, hend, hlen⟩ := hinv
  rw [hq, urlsOf_cons] at hnd hmem
  obtain ⟨-, -, hent, hgrab | hng⟩ := crawlStep_ok_inversion cfg col s link rest hq s' h
  · obtain ⟨-, hlt, hexp, hsyn⟩ := hgrab
    have hexpeq := grabLinks_explored_eq link.url cfg.maxNumLinksToFollow
      (col.pageAnchors (s.count + 1) link.url) s.exploredUrls
    have hendG := grabLinks_explored_nodup link.url cfg.maxNumLinksToFollow
      (col.pageAnchors (s.count + 1) link.url) s.exploredUrls hend
    have hleG := grabLinks_explored_length_le link.url cfg.maxNumLinksToFollow
      (col.pageAnchors (s.count + 1) link.url) s.exploredUrls hlt
    rw [hexpeq] at hendG
    set W := ((grabLinks (col.pageAnchors (s.count + 1) link.url) link.url
      s.exploredUrls cfg.maxNumLinksToFollow).1).map SynLink.url with hW
    have hfull : ((urlsOf s.entries ++ link.url :: urlsOf rest) ++ W).Nodup :=
      nodup_append_of_subset hnd hmem hendG
    have key : (urlsOf s'.entries ++ urlsOf s'.synLinks).Sublist
        ((urlsOf s.entries ++ link.url :: urlsOf rest) ++ W) := by
      rw [hent, hsyn, urlsOf_append]
      cases haddc : col.addLinkSucceeds (s.count + 1) with
      | false =>
        rw [urlsOf_addLink_false]
        have hR : (urlsOf s.entries ++ link.url :: urlsOf rest) ++ W =
            urlsOf s.entries ++ (link.url :: (urlsOf rest ++ W)) := by
          simp
        rw [hR]
        have hG : urlsOf (grabLinks (col.pageAnchors (s.count + 1) link.url) link.url
            s.exploredUrls cfg.maxNumLinksToFollow).1 = W := rfl
        rw [hG]
        exact (List.sublist_cons_self link.url (urlsOf rest ++ W)).append_left _
      | true =>
        rw [urlsOf_addLink_true, classifyLink_url]
        have hG : urlsOf (grabLinks (col.pageAnchors (s.count + 1) link.url) link.url
            s.exploredUrls cfg.maxNumLinksToFollow).1 = W := rfl
        rw [hG]
        have hR : (urlsOf s.entries ++ [link.url]) ++ (urlsOf rest ++ W) =
            (urlsOf s.entries ++ link.url :: urlsOf rest) ++ W := by
          simp
        rw [hR]
    refine ⟨key.nodup hfull, ?_, ?_, ?_⟩
    · intro u hu
      rw [hexp, hexpeq]
      rcases List.mem_append.mp (key.subset hu) with hA | hB
      · exact List.mem_append_left _ (hmem u hA)
      · exact List.mem_append_right _ hB
    · rw [hexp]
      exact grabLinks_explored_nodup link.url cfg.maxNumLinksToFollow
        (col.pageAnchors (s.count + 1) link.url) s.exploredUrls hend
    · rw [hexp]
      exact hleG
  · have key : (urlsOf s'.entries ++ urlsOf s'.synLinks).Sublist
        (urlsOf s.entries ++ link.url :: urlsOf rest) := by
      rw [hent, hng.2]
      cases haddc : col.addLinkSucceeds (s.count + 1) with
      | false =>
        rw [urlsOf_addLink_false]
        exact (List.sublist_cons_self link.url (urlsOf rest)).append_left _
      | true =>
        rw [urlsOf_addLink_true, classifyLink_url]
        have hR : (urlsOf s.entries ++ [link.url]) ++ urlsOf rest =
            urlsOf s.entries ++ link.url :: urlsOf rest := by
          simp
        rw [hR]
    refine ⟨key.nodup hnd, ?_, ?_, ?_⟩
    · intro u hu
      rw [hng.1]
      exact hmem u (key.subset hu)
    · rw [hng.1]; exact hend
    · rw [hng.1]; exact hlen

/-- The dedup invariant is preserved along any normally-completed run of the
loop, whatever the fuel. -/
theorem crawlLoop_preserves_noDupUrls (cfg : CrawlConfig) (col : Collaborators) :
    ∀ (fuel : Nat) (s : CrawlState), NoDupUrls cfg.maxNumLinksToFollow s →
      ∀ s', crawlLoop cfg col fuel s = Except.ok s' →
        NoDupUrls cfg.maxNumLinksToFollow s' := by
  intro fuel
  induction fuel with
  | zero =>
    intro s hinv s' h
    simp only [crawlLoop, Except.ok.injEq] at h
    rw [← h]; exact hinv
  | succ n ih =>
    intro s hinv s' h
    cases hq : s.synLinks with
    | nil =>
      simp only [crawlLoop, hq, Except.ok.injEq] at h
      rw [← h]; exact hinv
    | cons link rest =>
      simp only [crawlLoop, hq] at h
      cases hstep : crawlStep cfg col s with
      | error e => rw [hstep] at h; cases h
      | ok s2 =>
        rw [hstep] at h
        exact ih s2 (crawlStep_preserves_noDupUrls cfg col s link rest hq s2 hstep hinv) s' h

/-- Seeding turns the url list into the initial entries-free state whose
queue urls are exactly the seeds. -/
theorem urlsOf_initLinks (l : List String) :
    urlsOf (l.map fun url => ({ url := url } : SynLink)) = l := by
  induction l with
  | nil => rfl
  | cons x xs ih => simp only [List.map_cons, urlsOf_cons, ih]

/-- A duplicate-free seed list within the cap seeds a state satisfying the
dedup invariant. -/
theorem initState_noDupUrls (cfg : CrawlConfig) (hnd : cfg.urlList.Nodup)
    (hlen : cfg.urlList.length ≤ cfg.maxNumLinksToFollow) :
    NoDupUrls cfg.maxNumLinksToFollow (initState cfg) := by
  refine ⟨?_, ?_, hnd, by simpa [initState] using hlen⟩
  · simpa [initState, urlsOf_initLinks] using hnd
  · intro u hu
    simpa [initState, urlsOf_initLinks] using
      (by simpa [initState, urlsOf_initLinks] using hu : u ∈ cfg.urlList)

/-- The configured fuel covers the initial measure. -/
theorem initState_measure_le (cfg : CrawlConfig) :
    crawlMeasure cfg.maxNumLinksToFollow (initState cfg) ≤ crawlFuel cfg := by
  unfold crawlMeasure crawlFuel initState
  simp only [List.length_map]
  omega

/-- The `brokenLinkError` update of one classification is the most recent
failure detail: a failing outcome overwrites the prior detail with its own,
a successful one keeps the prior detail. -/
theorem classifyLink_brokenLinkError_latest (link : SynLink) (nav : NavOutcome)
    (b : Option String) :
    (classifyLink link nav b).2 =
      match (classifyLink link nav none).2 with
      | some d => some d
      | none => b := by
  cases nav with
  | throws err => simp [classifyLink]
  | resolves resp =>
    cases resp with
    | none => simp [classifyLink]
    | some r =>
      by_cases h : statusTruthy r.status ∧ r.status.getD 0 < 400
      · simp [classifyLink, h]
      · simp [classifyLink, h]

/-- resetPage always returns normally: its try/catch swallows the goto
failure. -/
theorem resetPage_eq (r : Except String Unit) : resetPage r = Except.ok () := by
  cases r <;> rfl

/-- Session preparation with healthy close/launch collaborators never
errors, whatever happens to the blank-page reset. -/
theorem prepareSession_ok (count numR maxN : Nat) (resetResult : Except String Unit) :
    prepareSession count numR maxN (Except.ok ()) (Except.ok ()) resetResult =
      Except.ok () := by
  cases hd : decideSessionAction count numR maxN <;> simp [prepareSession, hd, resetPage_eq]

/-- On a nonempty queue, a `crawlStep` error is exactly a session-preparation
error: nothing else in an iteration can abort the crawl. -/
theorem crawlStep_error_iff (cfg : CrawlConfig) (col : Collaborators)
    (s : CrawlState) (link : SynLink) (rest : List SynLink)
    (hq : s.synLinks = link :: rest) (e : String) :
    crawlStep cfg col s = Except.error e ↔
      prepareSession (s.count + 1) cfg.numLinksToRelaunchBrowser cfg.maxNumLinksToFollow
        (col.closeResult (s.count + 1)) (col.launchResult (s.count + 1))
        (col.resetResult (s.count + 1)) = Except.error e := by
  constructor
  · intro h
    simp only [crawlStep, hq] at h
    cases hprep : prepareSession (s.count + 1) cfg.numLinksToRelaunchBrowser
        cfg.maxNumLinksToFollow (col.closeResult (s.count + 1)) (col.launchResult (s.count + 1))
        (col.resetResult (s.count + 1)) with
    | error e' =>
      rw [hprep] at h
      simp only [Except.error.injEq] at h
      rw [h]
    | ok u =>
      rw [hprep] at h
      by_cases hgrab : navigationSucceeded (col.gotoOutcome (s.count + 1) link.url) = true ∧
          s.exploredUrls.length < cfg.maxNumLinksToFollow
      · rw [if_pos hgrab] at h; cases h
      · rw [if_neg hgrab] at h; cases h
  · intro h
    simp only [crawlStep, hq, h]

/-- A step error on a nonempty queue aborts the whole remaining loop with
that error. -/
theorem crawlLoop_error_of_step (cfg : CrawlConfig) (col : Collaborators)
    (fuel : Nat) (s : CrawlState) (e : String) (link : SynLink) (rest : List SynLink)
    (hq : s.synLinks = link :: rest)
    (h : crawlStep cfg col s = Except.error e) :
    crawlLoop cfg col (fuel + 1) s = Except.error e := by
  simp only [crawlLoop, hq, h]

/-- A loop error is the controller's thrown outcome. -/
theorem webCrawlerController_error_of_loop (cfg : CrawlConfig) (col : Collaborators)
    (e : String)
    (h : crawlLoop cfg col (crawlFuel cfg) (initState cfg) = Except.error e) :
    webCrawlerController cfg col = Except.error e := by
  simp [webCrawlerController, h]

/-- When all pages expose no anchors, report appends succeed and the session
collaborators are healthy, a completed run's report urls are the starting
entries' urls followed by the starting queue's urls, in order. -/
theorem crawlLoop_entries_of_no_anchors (cfg : CrawlConfig) (col : Collaborators)
    (hanch : ∀ n u, col.pageAnchors n u = [])
    (hadd : ∀ n, col.addLinkSucceeds n = true) :
    ∀ (fuel : Nat) (s : CrawlState), s.synLinks.length ≤ fuel →
      ∀ s', crawlLoop cfg col fuel s = Except.ok s' →
        urlsOf s'.entries = urlsOf s.entries ++ urlsOf s.synLinks := by
  intro fuel
  induction fuel with
  | zero =>
    intro s hm s' h
    simp only [crawlLoop, Except.ok.injEq] at h
    have hnil : s.synLinks = [] := List.length_eq_zero.mp (by omega)
    rw [← h, hnil]
    simp
  | succ n ih =>
    intro s hm s' h
    cases hq : s.synLinks with
    | nil =>
      simp only [crawlLoop, hq, Except.ok.injEq] at h
      rw [← h]
      simp
    | cons link rest =>
      simp only [crawlLoop, hq] at h
      cases hstep : crawlStep cfg col s with
      | error e => rw [hstep] at h; cases h
      | ok s2 =>
        rw [hstep] at h
        obtain ⟨-, -, hent, hgrab | hng⟩ :=
          crawlStep_ok_inversion cfg col s link rest hq s2 hstep
        · obtain ⟨-, -, -, hsyn⟩ := hgrab
          rw [hanch (s.count + 1) link.url] at hsyn
          simp only [grabLinks, List.append_nil] at hsyn
          have hrest : s2.synLinks.length ≤ n := by
            rw [hsyn]
            rw [hq] at hm
            simp only [List.length_cons] at hm
            omega
          have := ih s2 hrest s' h
          rw [this, hent, hadd (s.count + 1), urlsOf_addLink_true, classifyLink_url, hsyn]
          simp
        · have hrest : s2.synLinks.length ≤ n := by
            rw [hng.2]
            rw [hq] at hm
            simp only [List.length_cons] at hm
            omega
          have := ih s2 hrest s' h
          rw [this, hent, hadd (s.count + 1), urlsOf_addLink_true, classifyLink_url, hng.2]
          simp

/-! ## Claim theorems -/

/-- C1: the claim states that with domain enforcement enabled, a document
request whose url does not match the allow-list is not continued. The code
does the opposite: the request-interception listener continues every
document request, whatever the enforcement flag, the configured domain and
the request url — both branches of the domain test call
`request.continue()` (src/index.js:236-237). In particular the off-domain
document request of the claim is continued. -/
theorem documentRequestAlwaysContinues (mustIncludeDomain : Bool)
    (domain requestUrl : String) :
    onRequest mustIncludeDomain domain "document" requestUrl =
      RequestDecision.continued := by
  unfold onRequest
  rw [if_pos rfl]
  exact ite_self _

/-- C2: for a dequeued link (which carries no failure reason yet) whose
navigation resolves with a response carrying a truthy status, classification
is decided exactly at the 400 boundary: status `< 400` populates
statusCode/statusText and leaves no failureReason (Succeeded); status
`>= 400` populates statusCode/statusText and sets failureReason to
`"Status code: <code> <text>"` (Broken). Instantiating at 399 and 400 gives
the exact boundary. -/
theorem statusBoundaryClassification (link : SynLink) (b : Option String)
    (n : Nat) (st : String) (hfr : link.failureReason = none) (hn : n ≠ 0) :
    (n < 400 →
      (classifyLink link (NavOutcome.resolves (some { status := some n, statusText := st }))
        b).1.statusCode = some n ∧
      (classifyLink link (NavOutcome.resolves (some { status := some n, statusText := st }))
        b).1.statusText = some st ∧
      (classifyLink link (NavOutcome.resolves (some { status := some n, statusText := st }))
        b).1.failureReason = none) ∧
    (400 ≤ n →
      (classifyLink link (NavOutcome.resolves (some { status := some n, statusText := st }))
        b).1.statusCode = some n ∧
      (classifyLink link (NavOutcome.resolves (some { status := some n, statusText := st }))
        b).1.statusText = some st ∧
      (classifyLink link (NavOutcome.resolves (some { status := some n, statusText := st }))
        b).1.failureReason = some ("Status code: " ++ toString n ++ " " ++ st)) := by
  constructor
  · intro hlt
    simp [classifyLink, statusTruthy, hn, hlt, hfr]
  · intro hge
    have hnlt : ¬n < 400 := by omega
    simp [classifyLink, hnlt, statusToString]

/-- Witness for C2 at the boundary statuses 399 and 400. -/
theorem statusBoundaryClassificationWitness :
    ((classifyLink { url := "https://x/" }
        (NavOutcome.resolves (some { status := some 399, statusText := "OK" }))
        none).1.failureReason = none) ∧
    ((classifyLink { url := "https://x/" }
        (NavOutcome.resolves (some { status := some 400, statusText := "Bad" }))
        none).1.failureReason = some ("Status code: " ++ toString 400 ++ " " ++ "Bad")) :=
  ⟨((statusBoundaryClassification { url := "https://x/" } none 399 "OK" rfl
      (by decide)).1 (by decide)).2.2,
   ((statusBoundaryClassification { url := "https://x/" } none 400 "Bad" rfl
      (by decide)).2 (by decide)).2.2⟩

/-- C4 counterexample: the claim states that a response with a falsy status
is classified identically to the no-response case. It is not: at
status `0` the code takes the error-status branch, setting
`statusCode = 0` and `failureReason = "Status code: 0 "`, whereas the
no-response case sets `failureReason = "Received null or undefined
response"` with no status fields. -/
theorem falsyStatusNotErroredCounterexample :
    ¬((classifyLink { url := "https://x/" }
        (NavOutcome.resolves (some { status := some 0, statusText := "" })) none).1 =
      (classifyLink { url := "https://x/" } (NavOutcome.resolves none) none).1) := by
  decide

/-- C4 amended: a response whose status is undefined or otherwise falsy is
classified through the error-status (`else if (response)`) branch, i.e. as
Broken: statusCode/statusText are populated from the response and
failureReason is `"Status code: <status> <text>"` — not identically to the
no-response case, which yields the fixed failureReason
`"Received null or undefined response"` and no status fields. -/
theorem falsyStatusClassifiedBroken (link : SynLink) (b : Option String)
    (r : NavResponse) (hf : statusTruthy r.status = false) :
    (classifyLink link (NavOutcome.resolves (some r)) b).1 =
      { link with
        statusCode := r.status
        statusText := some r.statusText
        failureReason :=
          some ("Status code: " ++ statusToString r.status ++ " " ++ r.statusText) } ∧
    (classifyLink link (NavOutcome.resolves none) b).1 =
      { link with failureReason := some "Received null or undefined response" } := by
  have hc : ¬(statusTruthy r.status ∧ r.status.getD 0 < 400) := by
    simp [hf]
  constructor
  · simp [classifyLink, hc]
  · simp [classifyLink]

/-- Witness for the amended C4 at status `0`. -/
theorem falsyStatusClassifiedBrokenWitness :
    (classifyLink { url := "https://x/" }
        (NavOutcome.resolves (some { status := some 0, statusText := "No Good" })) none).1 =
      { url := "https://x/"
        statusCode := some 0
        statusText := some "No Good"
        failureReason :=
          some ("Status code: " ++ statusToString (some 0) ++ " " ++ "No Good") } :=
  (falsyStatusClassifiedBroken { url := "https://x/" } none
    { status := some 0, statusText := "No Good" } (by decide)).1

/-- C6: before navigating the k-th dequeued link, a full teardown/relaunch
happens iff `k` is a positive multiple of the relaunch interval and differs
from the cap; otherwise a blank-page reset happens iff `k != 1`; in the
remaining case (the very first link, when the relaunch condition does not
fire at 1 — in particular for the source interval 5) the page is used as
obtained. With interval 5 and cap 12, among the first 12 links relaunches
happen exactly before links 5 and 10. -/
theorem sessionActionSchedule (k numR maxN : Nat) (hk : 1 ≤ k) :
    (decideSessionAction k numR maxN = SessionAction.relaunch ↔
      (numR ∣ k ∧ k ≠ maxN)) ∧
    (decideSessionAction k numR maxN = SessionAction.reset ↔
      (¬(numR ∣ k ∧ k ≠ maxN) ∧ k ≠ 1)) ∧
    (decideSessionAction k numR maxN = SessionAction.usePage ↔
      (¬(numR ∣ k ∧ k ≠ maxN) ∧ k = 1)) ∧
    (numR = 5 → decideSessionAction 1 numR maxN = SessionAction.usePage) ∧
    (numR = 5 → maxN = 12 → k ≤ 12 →
      (decideSessionAction k numR maxN = SessionAction.relaunch ↔ (k = 5 ∨ k = 10))) := by
  have hdvd : (k % numR = 0) ↔ numR ∣ k := Nat.dvd_iff_mod_eq_zero.symm
  have hrel : decideSessionAction k numR maxN = SessionAction.relaunch ↔
      (numR ∣ k ∧ k ≠ maxN) := by
    unfold decideSessionAction
    by_cases hc : k % numR = 0 ∧ k ≠ maxN
    · simp only [if_pos hc]
      simp [hdvd.mp hc.1, hc.2]
    · simp only [if_neg hc]
      constructor
      · intro h
        by_cases h1 : k ≠ 1 <;> simp [h1] at h
      · intro h
        exact absurd ⟨hdvd.mpr h.1, h.2⟩ hc
  refine ⟨hrel, ?_, ?_, ?_, ?_⟩
  · unfold decideSessionAction
    by_cases hc : k % numR = 0 ∧ k ≠ maxN
    · simp only [if_pos hc]
      simp [hdvd.mp hc.1, hc.2]
    · simp only [if_neg hc]
      have hnc : ¬(numR ∣ k ∧ k ≠ maxN) := fun h => hc ⟨hdvd.mpr h.1, h.2⟩
      by_cases h1 : k ≠ 1 <;> simp [h1, hnc]
  · unfold decideSessionAction
    by_cases hc : k % numR = 0 ∧ k ≠ maxN
    · simp only [if_pos hc]
      simp [hdvd.mp hc.1, hc.2]
    · simp only [if_neg hc]
      have hnc : ¬(numR ∣ k ∧ k ≠ maxN) := fun h => hc ⟨hdvd.mpr h.1, h.2⟩
      by_cases h1 : k ≠ 1 <;> simp [h1, hnc]
      omega
  · intro h5
    subst h5
    simp [decideSessionAction]
  · intro h5 h12 hk12
    subst h5
    subst h12
    rw [hrel]
    constructor
    · rintro ⟨hdk, hne⟩
      rcases hdk with ⟨m, rfl⟩
      omega
    · rintro (rfl | rfl) <;> exact ⟨by decide, by decide⟩

/-- Witness for C6 at `k = 5`, interval 5, cap 12, and all schedule facts of
the first 12 links. -/
theorem sessionActionScheduleWitness :
    (decideSessionAction 5 5 12 = SessionAction.relaunch ↔ (5 ∣ 5 ∧ 5 ≠ 12)) ∧
    (decideSessionAction 5 5 12 = SessionAction.reset ↔
      (¬(5 ∣ 5 ∧ 5 ≠ 12) ∧ 5 ≠ 1)) ∧
    (decideSessionAction 5 5 12 = SessionAction.usePage ↔
      (¬(5 ∣ 5 ∧ 5 ≠ 12) ∧ 5 = 1)) ∧
    (5 = 5 → decideSessionAction 1 5 12 = SessionAction.usePage) ∧
    (5 = 5 → 12 = 12 → 5 ≤ 12 →
      (decideSessionAction 5 5 12 = SessionAction.relaunch ↔ (5 = 5 ∨ 5 = 10))) :=
  sessionActionSchedule 5 5 12 (by decide)

/-- C7: the claim states that both network-facing navigations pass the
configured per-navigation timeout as their explicit `timeout` option. They
do not: both options objects are built with the ES6 shorthand property
`TIMEOUT` (src/index.js:184, 243-246), so their keys are exactly
`waitUntil` and `TIMEOUT` and neither carries the lower-case `timeout`
option that puppeteer reads — the configured value never reaches the
navigation. -/
theorem gotoOptionsLackTimeoutOption :
    (gotoOptions.map Prod.fst = ["waitUntil", "TIMEOUT"] ∧
      resetPageGotoOptions.map Prod.fst = ["waitUntil", "TIMEOUT"]) ∧
    ("timeout" ∉ gotoOptions.map Prod.fst ∧
      "timeout" ∉ resetPageGotoOptions.map Prod.fst) := by
  refine ⟨⟨rfl, rfl⟩, ?_, ?_⟩ <;> decide

/-- C3: when traversal completes normally, the crawl throws iff the report
holds a non-zero broken-link count; the thrown payload combines that count
with the most recent failure detail recorded
(`"<n> broken link(s) detected. <latest brokenLinkError>"`); and each
iteration's `brokenLinkError` update keeps the most recent detail: a failing
classification overwrites it, a successful one preserves it. -/
theorem crawlVerdictIffBroken (cfg : CrawlConfig) (col : Collaborators) (s : CrawlState)
    (h : crawlLoop cfg col (crawlFuel cfg) (initState cfg) = Except.ok s) :
    (webCrawlerController cfg col = Except.ok () ↔ totalBrokenLinks s.entries = 0) ∧
    (totalBrokenLinks s.entries ≠ 0 →
      webCrawlerController cfg col =
        Except.error (toString (totalBrokenLinks s.entries) ++ " broken link(s) detected. " ++
          jsStringOfNullable s.brokenLinkError)) ∧
    (∀ (l : SynLink) (nav : NavOutcome) (b : Option String),
      (classifyLink l nav b).2 =
        match (classifyLink l nav none).2 with
        | some d => some d
        | none => b) := by
  refine ⟨?_, ?_, classifyLink_brokenLinkError_latest⟩
  · unfold webCrawlerController
    rw [h]
    by_cases hb : totalBrokenLinks s.entries = 0
    · simp [crawlVerdict, hb]
    · simp [crawlVerdict, hb]
  · intro hb
    unfold webCrawlerController
    rw [h]
    simp [crawlVerdict, hb]

/-- Witness for C3: a one-seed crawl whose navigation yields no response
records one broken link and throws the combined payload. -/
theorem crawlVerdictIffBrokenWitness :
    webCrawlerController cfgW1 colW1 =
      Except.error ("1 broken link(s) detected. " ++
        "Failed to receive network response for url: https://s/") :=
  (crawlVerdictIffBroken cfgW1 colW1 stateW1 rfl).2.1 (by decide)

/-- C5: from a duplicate-free seed list within the cap, every state
reachable by the loop (any fuel) satisfies the dedup invariant — no url
twice across queue and entries, all of them recorded in `exploredUrls`,
which stays duplicate-free and capped; and extraction started below the cap
keeps `exploredUrls` within the cap while admitting exactly the first
`min(uncapped admissions, remaining budget)` links — it stops mid-batch the
instant the cap is reached. -/
theorem dedupInvariantAndCap (cfg : CrawlConfig) (col : Collaborators)
    (hnd : cfg.urlList.Nodup) (hlen : cfg.urlList.length ≤ cfg.maxNumLinksToFollow) :
    (∀ (fuel : Nat) (s' : CrawlState),
      crawlLoop cfg col fuel (initState cfg) = Except.ok s' →
        NoDupUrls cfg.maxNumLinksToFollow s') ∧
    (∀ (anchors : List Anchor) (sourceUrl : String) (explored : List String),
      explored.length < cfg.maxNumLinksToFollow →
        ((grabLinks anchors sourceUrl explored cfg.maxNumLinksToFollow).2).length ≤
          cfg.maxNumLinksToFollow ∧
        ((grabLinks anchors sourceUrl explored cfg.maxNumLinksToFollow).1).length =
          min (((grabLinksNoCap anchors sourceUrl explored).1).length)
            (cfg.maxNumLinksToFollow - explored.length) ∧
        (grabLinks anchors sourceUrl explored cfg.maxNumLinksToFollow).1 <+:
          (grabLinksNoCap anchors sourceUrl explored).1) := by
  constructor
  · intro fuel s' h
    exact crawlLoop_preserves_noDupUrls cfg col fuel (initState cfg)
      (initState_noDupUrls cfg hnd hlen) s' h
  · intro anchors sourceUrl explored hlt
    exact ⟨grabLinks_explored_length_le sourceUrl cfg.maxNumLinksToFollow anchors explored hlt,
      grabLinks_length_eq_min sourceUrl cfg.maxNumLinksToFollow anchors explored hlt,
      grabLinks_prefix_noCap sourceUrl cfg.maxNumLinksToFollow anchors explored⟩

/-- Witness for C5 on a completed one-seed crawl and on a four-anchor page
against cap 1. -/
theorem dedupInvariantAndCapWitness :
    NoDupUrls cfgW1.maxNumLinksToFollow stateW1 ∧
    ((grabLinks [{ href := "https://a/", text := "a" }, { href := "https://b/", text := "b" },
        { href := "https://c/", text := "c" }, { href := "https://d/", text := "d" }]
        "https://s/" [] cfgW1.maxNumLinksToFollow).2).length ≤ cfgW1.maxNumLinksToFollow :=
  ⟨(dedupInvariantAndCap cfgW1 colW1 (by decide) (by decide)).1 (crawlFuel cfgW1) stateW1 rfl,
   ((dedupInvariantAndCap cfgW1 colW1 (by decide) (by decide)).2
      [{ href := "https://a/", text := "a" }, { href := "https://b/", text := "b" },
       { href := "https://c/", text := "c" }, { href := "https://d/", text := "d" }]
      "https://s/" [] (by decide)).1⟩

/-- C8: the crawl loop terminates within the configured fuel — any normally
completed run from the seeded state has drained the queue; each iteration on
a nonempty queue strictly decreases the measure (queue length plus remaining
discovery budget); every extraction grows `exploredUrls` by exactly its
accepted links; and extraction started below the cap stays within it. -/
theorem crawlTerminates :
    (∀ (cfg : CrawlConfig) (col : Collaborators) (s' : CrawlState),
      crawlLoop cfg col (crawlFuel cfg) (initState cfg) = Except.ok s' →
        s'.synLinks = []) ∧
    (∀ (cfg : CrawlConfig) (col : Collaborators) (s : CrawlState) (link : SynLink)
      (rest : List SynLink) (s' : CrawlState), s.synLinks = link :: rest →
      crawlStep cfg col s = Except.ok s' →
      crawlMeasure cfg.maxNumLinksToFollow s' < crawlMeasure cfg.maxNumLinksToFollow s) ∧
    (∀ (anchors : List Anchor) (sourceUrl : String) (explored : List String) (maxN : Nat),
      ((grabLinks anchors sourceUrl explored maxN).2).length =
        explored.length + ((grabLinks anchors sourceUrl explored maxN).1).length) ∧
    (∀ (anchors : List Anchor) (sourceUrl : String) (explored : List String) (maxN : Nat),
      explored.length < maxN →
        ((grabLinks anchors sourceUrl explored maxN).2).length ≤ maxN) := by
  refine ⟨?_, ?_, ?_, ?_⟩
  · intro cfg col s' h
    exact crawlLoop_drains cfg col (crawlFuel cfg) (initState cfg)
      (initState_measure_le cfg) s' h
  · intro cfg col s link rest s' hq hstep
    exact crawlStep_measure_lt cfg col s link rest hq s' hstep
  · intro anchors sourceUrl explored maxN
    rw [grabLinks_explored_eq sourceUrl maxN anchors explored]
    simp
  · intro anchors sourceUrl explored maxN hlt
    exact grabLinks_explored_length_le sourceUrl maxN anchors explored hlt

/-- Witness for C8: the one-seed crawl drains its queue within the
configured fuel. -/
theorem crawlTerminatesWitness : stateW1.synLinks = [] :=
  crawlTerminates.1 cfgW1 colW1 stateW1 rfl

/-- C9: seed urls are enqueued one link per occurrence with no duplicate
suppression, and — when pages expose no further anchors and report appends
succeed — a completed crawl records exactly one entry per seed occurrence in
order, so a duplicated seed url appears multiple times in the report. -/
theorem duplicateSeedsProcessedSeparately (cfg : CrawlConfig) (col : Collaborators)
    (hanch : ∀ (n : Nat) (u : String), col.pageAnchors n u = [])
    (hadd : ∀ (n : Nat), col.addLinkSucceeds n = true) :
    urlsOf (initState cfg).synLinks = cfg.urlList ∧
    (∀ s', crawlLoop cfg col (crawlFuel cfg) (initState cfg) = Except.ok s' →
      urlsOf s'.entries = cfg.urlList ∧
      totalLinksChecked s'.entries = cfg.urlList.length) := by
  refine ⟨urlsOf_initLinks _, ?_⟩
  intro s' h
  have hlen : (initState cfg).synLinks.length ≤ crawlFuel cfg := by
    simp only [initState, List.length_map, crawlFuel]
    omega
  have hurls : urlsOf s'.entries = cfg.urlList := by
    rw [crawlLoop_entries_of_no_anchors cfg col hanch hadd (crawlFuel cfg)
      (initState cfg) hlen s' h]
    simp [initState, urlsOf_initLinks]
  refine ⟨hurls, ?_⟩
  unfold totalLinksChecked
  rw [show s'.entries.length = (urlsOf s'.entries).length by simp [urlsOf], hurls]

/-- Witness for C9: the seed list `[dup, dup]` yields a report holding the
same url twice. -/
theorem duplicateSeedsProcessedSeparatelyWitness :
    urlsOf stateW9.entries = cfgW9.urlList ∧
    totalLinksChecked stateW9.entries = cfgW9.urlList.length :=
  (duplicateSeedsProcessedSeparately cfgW9 colW1 (fun _ _ => rfl) (fun _ => rfl)).2
    stateW9 rfl

/-- C10: a failure of `synthetics.close()` or `synthetics.launch()` during a
scheduled relaunch propagates out of session preparation, makes the whole
iteration error, and aborts the remaining loop and the controller with that
error — whereas blank-page-reset failures never make session preparation
error, screenshot-capture failures are swallowed to an undefined result, and
report-append failures are swallowed leaving the entries unchanged; indeed
an iteration can only error through session preparation. -/
theorem relaunchFailurePropagates :
    (∀ (count numR maxN : Nat) (e : String) (launchResult resetResult : Except String Unit),
      decideSessionAction count numR maxN = SessionAction.relaunch →
        prepareSession count numR maxN (Except.error e) launchResult resetResult =
          Except.error e) ∧
    (∀ (count numR maxN : Nat) (e : String) (resetResult : Except String Unit),
      decideSessionAction count numR maxN = SessionAction.relaunch →
        prepareSession count numR maxN (Except.ok ()) (Except.error e) resetResult =
          Except.error e) ∧
    (∀ (count numR maxN : Nat) (resetResult : Except String Unit),
      prepareSession count numR maxN (Except.ok ()) (Except.ok ()) resetResult =
        Except.ok ()) ∧
    (∀ (e : String), takeScreenshot (Except.error e) = none) ∧
    (∀ (entries : List SynLink) (link : SynLink),
      addLinkToReport entries link false = entries) ∧
    (∀ (cfg : CrawlConfig) (col : Collaborators) (s : CrawlState) (link : SynLink)
      (rest : List SynLink) (e : String), s.synLinks = link :: rest →
      (crawlStep cfg col s = Except.error e ↔
        prepareSession (s.count + 1) cfg.numLinksToRelaunchBrowser cfg.maxNumLinksToFollow
          (col.closeResult (s.count + 1)) (col.launchResult (s.count + 1))
          (col.resetResult (s.count + 1)) = Except.error e)) ∧
    (∀ (cfg : CrawlConfig) (col : Collaborators) (fuel : Nat) (s : CrawlState) (e : String)
      (link : SynLink) (rest : List SynLink), s.synLinks = link :: rest →
      crawlStep cfg col s = Except.error e →
      crawlLoop cfg col (fuel + 1) s = Except.error e) ∧
    (∀ (cfg : CrawlConfig) (col : Collaborators) (e : String),
      crawlLoop cfg col (crawlFuel cfg) (initState cfg) = Except.error e →
      webCrawlerController cfg col = Except.error e) := by
  refine ⟨?_, ?_, ?_, ?_, ?_, ?_, ?_, ?_⟩
  · intro count numR maxN e launchResult resetResult hd
    simp [prepareSession, hd]
  · intro count numR maxN e resetResult hd
    simp [prepareSession, hd]
  · intro count numR maxN resetResult
    exact prepareSession_ok count numR maxN resetResult
  · intro e
    rfl
  · intro entries link
    rfl
  · intro cfg col s link rest e hq
    exact crawlStep_error_iff cfg col s link rest hq e
  · intro cfg col fuel s e link rest hq hstep
    exact crawlLoop_error_of_step cfg col fuel s e link rest hq hstep
  · intro cfg col e h
    exact webCrawlerController_error_of_loop cfg col e h

/-- Witness for C10: at processed-link counter 5 (interval 5, cap 12) a
failing close call aborts session preparation with its error. -/
theorem relaunchFailurePropagatesWitness :
    prepareSession 5 5 12 (Except.error "close failed") (Except.ok ()) (Except.ok ()) =
      Except.error "close failed" :=
  relaunchFailurePropagates.1 5 5 12 "close failed" (Except.ok ()) (Except.ok ())
    (by decide)

end WebCrawler
